import Mathlib

/-!
Verification of the data-access layer of the Private_Zomato food-tracker
repository.  The Python source (src/src/utils/db_utils.py,
src/src/utils/turso_db_utils.py, src/src/database.py,
src/src/turso_database.py, src/main.py) executes SQL against SQLite /
libsql.  The definitions below are a shallow embedding of those SQL
statements and of the Python control flow around them, under the
database engine's actual semantics.  Two facts about the source matter
throughout:

* No connection in the repository ever issues `PRAGMA foreign_keys = ON`.
  SQLite's documented default therefore applies: FOREIGN KEY constraints,
  including the `ON DELETE CASCADE` clause on `reviews.restaurant_id`
  declared in database.py, are NOT enforced at runtime.  CHECK, UNIQUE,
  NOT NULL and PRIMARY KEY constraints are enforced unconditionally.

* SQL `LIKE` compares ASCII letters case-insensitively and treats the
  pattern characters `%` (code 37) and `_` (code 95) as wildcards.
  Strings are mapped to their lists of Unicode code points where
  character-level reasoning is needed.

Numeric SQL results (`AVG`) are modelled with exact rationals.
-/

namespace Zomato

/-- A row of the `users` table (database.py lines 11-17):
`id INTEGER PRIMARY KEY AUTOINCREMENT, name TEXT NOT NULL UNIQUE,
created_at TIMESTAMP`. -/
structure User where
  id : Nat
  name : String
  created_at : Nat
deriving DecidableEq, Repr

/-- A row of the `restaurants` table (database.py lines 25-36, plus the
`price_per_person` column added by turso_database.py lines 46-58; the
column is nullable and is never written by `add_restaurant`). -/
structure Restaurant where
  id : Nat
  title : String
  cuisines : String
  area : String
  google_map_link : String
  added_by : String
  price_per_person : Option Rat
  restaurant_picture : Option (List Nat)
  created_at : Nat
deriving DecidableEq, Repr

/-- A row of the `reviews` table (database.py lines 39-49):
`rating INTEGER CHECK(rating >= 1 AND rating <= 5)`, and a declared
(but, absent the pragma, unenforced) foreign key on `restaurant_id`. -/
structure Review where
  id : Nat
  restaurant_id : Nat
  reviewer_name : String
  rating : Int
  comment : String
  review_date : Nat
deriving DecidableEq, Repr

/-- The whole database state.  The `next_*` counters model SQLite's
AUTOINCREMENT id assignment. -/
structure DB where
  users : List User
  restaurants : List Restaurant
  reviews : List Review
  next_user_id : Nat
  next_restaurant_id : Nat
  next_review_id : Nat
deriving DecidableEq, Repr

/-! ### SQL LIKE

`like p s` decides whether the pattern `p` matches the whole string `s`,
both given as lists of already case-folded code points.  `37` (`%`)
matches any substring and `95` (`_`) matches any single character, as in
SQLite's LIKE operator. -/

/-- SQLite LIKE pattern matching on code-point lists. -/
def like : List Nat → List Nat → Bool
  | [], s => s.isEmpty
  | a :: p, s =>
    if a == 37 then s.tails.any (fun t => like p t)
    else
      match s with
      | [] => false
      | c :: s2 => (a == 95 || a == c) && like p s2

/-- The code points of a string. -/
def codes (s : String) : List Nat := s.data.map Char.toNat

/-- ASCII case folding on a code point, as applied by SQLite's LIKE. -/
def foldCode (n : Nat) : Nat := if 65 ≤ n ∧ n ≤ 90 then n + 32 else n

/-- The case-folded code points of a string. -/
def codesFold (s : String) : List Nat := (codes s).map foldCode

/-- The test `column LIKE '%' || pat || '%'` as issued by
`search_restaurants` (db_utils.py lines 108-114): the user-supplied
filter string is spliced between two `%` wildcards. -/
def likeContains (pat s : String) : Bool :=
  like (37 :: (codesFold pat ++ [37])) (codesFold s)

/-! ### The operations of db_utils.py / turso_db_utils.py -/

/-- `add_restaurant` (turso_db_utils.py lines 52-92).  The INSERT is
executed and committed first; the function then returns the new id when
it is positive and `none` otherwise (the raise on a non-positive id is
caught by the surrounding except which returns `None` -- after the
commit already happened). -/
def add_restaurant (db : DB) (title cuisines area google_map_link added_by : String)
    (picture_bytes : Option (List Nat)) (t : Nat) : Option Nat × DB :=
  let rid := db.next_restaurant_id
  let db1 : DB :=
    { db with
      restaurants := db.restaurants ++
        [⟨rid, title, cuisines, area, google_map_link, added_by, none, picture_bytes, t⟩],
      next_restaurant_id := rid + 1 }
  if 0 < rid then (some rid, db1) else (none, db1)

/-- `add_review` (db_utils.py lines 35-50).  The CHECK constraint
`rating >= 1 AND rating <= 5` is enforced by SQLite regardless of the
foreign-key pragma, so an out-of-range rating raises IntegrityError,
which the except-branch turns into `False` with no row written.  The
declared FOREIGN KEY on `restaurant_id` is NOT checked because no
connection enables `PRAGMA foreign_keys`. -/
def add_review (db : DB) (restaurant_id : Nat) (reviewer_name : String) (rating : Int)
    (comment : String) (t : Nat) : Bool × DB :=
  if 1 ≤ rating ∧ rating ≤ 5 then
    (true,
      { db with
        reviews := db.reviews ++
          [⟨db.next_review_id, restaurant_id, reviewer_name, rating, comment, t⟩],
        next_review_id := db.next_review_id + 1 })
  else (false, db)

/-- The reviews referencing a given restaurant id
(`WHERE restaurant_id = ?`). -/
def reviews_for (revs : List Review) (rid : Nat) : List Review :=
  revs.filter (fun v => v.restaurant_id == rid)

/-- The projected output row of `get_reviews_for_restaurant`. -/
structure ReviewRow where
  reviewer_name : String
  rating : Int
  comment : String
  review_date : Nat
deriving DecidableEq, Repr

/-- `get_reviews_for_restaurant` (db_utils.py lines 61-72):
`SELECT reviewer_name, rating, comment, review_date FROM reviews WHERE
restaurant_id = ? ORDER BY review_date DESC`. -/
def get_reviews_for_restaurant (db : DB) (restaurant_id : Nat) : List ReviewRow :=
  (List.insertionSort (fun a b : Review => b.review_date ≤ a.review_date)
      (reviews_for db.reviews restaurant_id)).map
    (fun v => ⟨v.reviewer_name, v.rating, v.comment, v.review_date⟩)

/-- Round-half-to-even on rationals, the rounding mode of Python's
built-in `round`. -/
def roundHalfEven (q : Rat) : Int :=
  let f : Int := ⌊q⌋
  let r : Rat := q - (f : Rat)
  if r < 1 / 2 then f
  else if 1 / 2 < r then f + 1
  else if f % 2 = 0 then f else f + 1

/-- `round(q, 1)`: round to one decimal place, half to even (Python's
`round` with `ndigits = 1`, modelled in exact rational arithmetic). -/
def roundTo1 (q : Rat) : Rat := (roundHalfEven (10 * q) : Rat) / 10

/-- `get_average_rating` (db_utils.py lines 74-81).  `AVG(rating)` is
NULL when no review matches; the Python line
`round(result[0], 1) if result[0] else 0` maps both NULL and 0 to `0`
and otherwise rounds the average to one decimal place. -/
def get_average_rating (db : DB) (restaurant_id : Nat) : Rat :=
  let ratings := (reviews_for db.reviews restaurant_id).map (fun v => v.rating)
  let avg : Option Rat :=
    if ratings.isEmpty then none else some ((ratings.sum : Rat) / (ratings.length : Rat))
  match avg with
  | none => 0
  | some a => if a = 0 then 0 else roundTo1 a

/-- An output row of `fetch_all_restaurants` / `search_restaurants`:
the selected restaurant columns plus the two aggregates. -/
structure RestaurantRow where
  id : Nat
  title : String
  cuisines : String
  area : String
  google_map_link : String
  added_by : String
  restaurant_picture : Option (List Nat)
  avg_rating : Rat
  review_count : Nat
deriving DecidableEq, Repr

/-- The rows a single restaurant contributes to
`restaurants r LEFT JOIN reviews rev ON r.id = rev.restaurant_id`:
one row per matching review, or a single row with a NULL review side
when no review matches. -/
def join_block (revs : List Review) (r : Restaurant) : List (Restaurant × Option Review) :=
  let ms := reviews_for revs r.id
  if ms.isEmpty then [(r, none)] else ms.map (fun v => (r, some v))

/-- The full LEFT JOIN result. -/
def join_rows : List Restaurant → List Review → List (Restaurant × Option Review)
  | [], _ => []
  | r :: rs, revs => join_block revs r ++ join_rows rs revs

/-- The `GROUP BY r.id` group of a given id inside the join result. -/
def group_for (rs : List Restaurant) (revs : List Review) (rid : Nat) :
    List (Restaurant × Option Review) :=
  (join_rows rs revs).filter (fun p => p.1.id == rid)

/-- One aggregate output row: `COALESCE(AVG(rev.rating), 0)` (AVG skips
the NULL review sides and is NULL on an all-NULL group) and
`COUNT(rev.id)` (counts non-NULL review ids). -/
def agg_row (rs : List Restaurant) (revs : List Review) (r : Restaurant) : RestaurantRow :=
  let grp := group_for rs revs r.id
  let ratings := grp.filterMap (fun p => p.2.map (fun v => v.rating))
  { id := r.id, title := r.title, cuisines := r.cuisines, area := r.area,
    google_map_link := r.google_map_link, added_by := r.added_by,
    restaurant_picture := r.restaurant_picture,
    avg_rating := if ratings.isEmpty then 0 else (ratings.sum : Rat) / (ratings.length : Rat),
    review_count := (grp.filterMap (fun p => p.2.map (fun v => v.id))).length }

/-- The shared SELECT of db_utils.py lines 86-95 and 119-140: LEFT JOIN,
GROUP BY r.id, aggregates, ORDER BY r.id DESC. -/
def aggregate_rows (rs : List Restaurant) (revs : List Review) : List RestaurantRow :=
  (List.insertionSort (fun a b : Restaurant => b.id ≤ a.id) rs).map (agg_row rs revs)

/-- `fetch_all_restaurants` (db_utils.py lines 83-98). -/
def fetch_all_restaurants (db : DB) : List RestaurantRow :=
  aggregate_rows db.restaurants db.reviews

/-- The dynamically built WHERE conditions of `search_restaurants`
(db_utils.py lines 104-116): Python's `if area:` / `if cuisine:` add a
`LIKE '%..%'` condition exactly when the filter string is non-empty. -/
def cond_list (area cuisine : String) : List (Restaurant → Bool) :=
  (if area = "" then [] else [fun r => likeContains area r.area]) ++
  (if cuisine = "" then [] else [fun r => likeContains cuisine r.cuisines])

/-- `search_restaurants` (db_utils.py lines 100-144): with no conditions
the query is the `fetch_all_restaurants` query; otherwise the conditions
are AND-combined in the WHERE clause, which SQL applies to the
restaurant side before grouping. -/
def search_restaurants (db : DB) (area cuisine : String) : List RestaurantRow :=
  let conds := cond_list area cuisine
  if conds.isEmpty then aggregate_rows db.restaurants db.reviews
  else aggregate_rows (db.restaurants.filter (fun r => conds.all (fun c => c r))) db.reviews

/-- `delete_restaurant` (db_utils.py lines 146-159):
`DELETE FROM restaurants WHERE id = ?`.  The code comment at line 151
expects the reviews to be cascade-deleted, but since no connection
enables `PRAGMA foreign_keys`, SQLite does not act on the declared
`ON DELETE CASCADE` and the reviews rows are left untouched. -/
def delete_restaurant (db : DB) (restaurant_id : Nat) : Bool × DB :=
  (true, { db with restaurants := db.restaurants.filter (fun r => r.id != restaurant_id) })

/-- `get_all_users` (db_utils.py lines 168-175):
`SELECT name FROM users ORDER BY name`. -/
def get_all_users (db : DB) : List String :=
  List.insertionSort (fun a b : String => a ≤ b) (db.users.map (fun u => u.name))

/-- `add_user` (db_utils.py lines 177-192).  The UNIQUE constraint on
`users.name` makes a duplicate insert raise IntegrityError, which the
except-branch turns into `False` with nothing written. -/
def add_user (db : DB) (name : String) (t : Nat) : Bool × DB :=
  if db.users.any (fun u => u.name == name) then (false, db)
  else
    (true,
      { db with
        users := db.users ++ [⟨db.next_user_id, name, t⟩],
        next_user_id := db.next_user_id + 1 })

/-! ### The Add-Restaurant form handler of main.py -/

/-- The submitted form fields of the Add Restaurant page
(main.py lines 180-215). -/
structure FormInput where
  title : String
  price_per_person : Nat
  cuisines : List String
  area : String
  google_map_link : String
  added_by : String
  rating : Int
  comments : String
  picture : Option (List Nat)
deriving DecidableEq, Repr

/-- What the form submission ends in. -/
inductive FormOutcome where
  /-- add_restaurant returned an id and the success banner was shown. -/
  | success (restaurant_id : Nat)
  /-- A required field was missing (main.py line 242). -/
  | validationError
  /-- add_restaurant returned None; the handler silently does nothing. -/
  | insertFailed
  /-- Uncaught TypeError: the call at main.py line 232 passes more
  positional arguments than the callee accepts. -/
  | typeError
deriving DecidableEq, Repr

/-- Result of one form submission: outcome, resulting database state and
whether the `add_review` call at main.py line 237 was reached. -/
structure FormResult where
  outcome : FormOutcome
  db : DB
  review_insert_attempted : Bool
deriving DecidableEq, Repr

/-- Number of positional arguments in the call
`add_restaurant(title, cuisine_str, area, google_map_link, added_by,
picture_bytes, price_per_person)` at main.py line 232. -/
def main_add_restaurant_call_arg_count : Nat := 7

/-- Number of parameters of `add_restaurant(title, cuisines, area,
google_map_link, added_by, picture_bytes)` at turso_db_utils.py line 52,
the function main.py imports. -/
def turso_add_restaurant_param_count : Nat := 6

/-- The Add Restaurant form handler (main.py lines 217-242).  Python
binds positional arguments before running the callee, so the 7-vs-6
arity mismatch at line 232 raises TypeError before any insert is
attempted; the remaining branches transcribe lines 233-242 as they would
execute if the call could bind. -/
def add_restaurant_form (db : DB) (inp : FormInput) (t : Nat) : FormResult :=
  if inp.title ≠ "" ∧ inp.area ≠ "" ∧ inp.google_map_link ≠ "" ∧ inp.cuisines ≠ [] then
    if main_add_restaurant_call_arg_count ≠ turso_add_restaurant_param_count then
      ⟨.typeError, db, false⟩
    else
      let cuisine_str := String.intercalate ", " inp.cuisines
      match add_restaurant db inp.title cuisine_str inp.area inp.google_map_link
          inp.added_by inp.picture t with
      | (some rid, db1) =>
        if inp.comments ≠ "" then
          ⟨.success rid, (add_review db1 rid inp.added_by inp.rating inp.comments t).2, true⟩
        else ⟨.success rid, db1, false⟩
      | (none, db1) => ⟨.insertFailed, db1, false⟩
  else ⟨.validationError, db, false⟩

/-- Whether a form outcome is the success outcome. -/
def FormOutcome.isSuccess : FormOutcome → Bool
  | .success _ => true
  | _ => false

/-! ### Specification-side notions

These definitions follow the specification's wording; the theorems below
compare them with the definitions translated from the source. -/

/-- A code-point list free of the LIKE wildcards `%` (37) and `_` (95). -/
def noWild (l : List Nat) : Prop := ∀ n ∈ l, n ≠ 37 ∧ n ≠ 95

/-- The spec's search notion: `pat` occurs in `s` as a case-insensitive
(ASCII) substring. -/
def containsCI (pat s : String) : Prop := codesFold pat <:+: codesFold s

/-- The filter string contains no LIKE wildcard characters. -/
def noWildcards (s : String) : Prop := noWild (codes s)

/-- The spec's `average_rating` notion: the exact mean of the ratings of
the reviews referencing the restaurant, `0` when there are none. -/
def ratingMean (db : DB) (restaurant_id : Nat) : Rat :=
  let ratings := (reviews_for db.reviews restaurant_id).map (fun v => v.rating)
  if ratings.isEmpty then 0 else (ratings.sum : Rat) / (ratings.length : Rat)

instance containsCI_decidable (pat s : String) : Decidable (containsCI pat s) := by
  unfold containsCI
  infer_instance

instance noWildcards_decidable (s : String) : Decidable (noWildcards s) := by
  unfold noWildcards noWild
  infer_instance

instance : IsTotal Restaurant (fun a b => b.id ≤ a.id) :=
  ⟨fun a b => Nat.le_total b.id a.id⟩

instance : IsTrans Restaurant (fun a b => b.id ≤ a.id) :=
  ⟨fun _ _ _ h1 h2 => le_trans h2 h1⟩

/-! ### Concrete database states used by the concrete theorems -/

/-- The spec's example restaurant. -/
def sampleRestaurant : Restaurant :=
  ⟨1, "Spice Hub", "Indian, Thai", "Indiranagar", "https://maps/x", "Raj", none, none, 0⟩

/-- A review of the sample restaurant. -/
def sampleReview : Review := ⟨1, 1, "Raj", 4, "Great", 5⟩

/-- One user, one restaurant, one review. -/
def sampleDB : DB := ⟨[⟨1, "Raj", 0⟩], [sampleRestaurant], [sampleReview], 2, 2, 2⟩

/-- A freshly provisioned, empty database. -/
def emptyDB : DB := ⟨[], [], [], 1, 1, 1⟩

/-- The spec's example Add-Restaurant submission. -/
def spiceInput : FormInput :=
  ⟨"Spice Hub", 400, ["Indian", "Thai"], "Indiranagar", "https://maps/x", "Raj", 4, "Great", none⟩

/-- One restaurant whose area is the single letter `X`. -/
def wildcardDB : DB := ⟨[], [⟨1, "T", "Indian", "X", "g", "Raj", none, none, 0⟩], [], 1, 2, 1⟩

/-- One restaurant with three reviews rated 2, 2 and 1 (mean 5/3). -/
def threeRatingDB : DB :=
  ⟨[], [⟨1, "T", "Indian", "A", "g", "u", none, none, 0⟩],
   [⟨1, 1, "a", 2, "x", 0⟩, ⟨2, 1, "b", 2, "y", 0⟩, ⟨3, 1, "c", 1, "z", 0⟩], 1, 2, 4⟩

/-! ### Lemmas about LIKE -/

theorem like_percent (p s : List Nat) :
    like (37 :: p) s = true ↔ ∃ t, t <:+ s ∧ like p t = true := by
  simp only [like, beq_self_eq_true, if_true, List.any_eq_true, List.mem_tails]

theorem like_percent_nil (s : List Nat) : like [37] s = true := by
  rw [like_percent]
  exact ⟨[], List.nil_suffix, rfl⟩

theorem like_lit_percent :
    ∀ p : List Nat, noWild p → ∀ s : List Nat, (like (p ++ [37]) s = true ↔ p <+: s) := by
  intro p
  induction p with
  | nil =>
    intro _ s
    simpa using like_percent_nil s
  | cons a p ih =>
    intro hp s
    have ha := hp a (List.mem_cons_self a p)
    have hp' : noWild p := fun n hn => hp n (List.mem_cons_of_mem a hn)
    cases s with
    | nil =>
      rw [List.cons_append]
      show (if (a == 37) = true then _ else _) = true ↔ _
      rw [if_neg (by simp [ha.1])]
      simp [like]
    | cons c s2 =>
      rw [List.cons_append]
      show (if (a == 37) = true then _ else _) = true ↔ _
      rw [if_neg (by simp [ha.1])]
      show ((a == 95 || a == c) && like (p ++ [37]) s2) = true ↔ _
      simp only [Bool.or_eq_true, Bool.and_eq_true, beq_iff_eq, List.cons_prefix_cons,
        ih hp' s2]
      constructor
      · rintro ⟨h1 | h1, h2⟩
        · exact absurd h1 ha.2
        · exact ⟨h1, h2⟩
      · rintro ⟨h1, h2⟩
        exact ⟨Or.inr h1, h2⟩

theorem like_substring_iff (p s : List Nat) (hp : noWild p) :
    like (37 :: (p ++ [37])) s = true ↔ p <:+: s := by
  rw [like_percent, List.infix_iff_prefix_suffix]
  constructor
  · rintro ⟨t, ht, hl⟩
    exact ⟨t, (like_lit_percent p hp t).1 hl, ht⟩
  · rintro ⟨t, hpt, hts⟩
    exact ⟨t, hts, (like_lit_percent p hp t).2 hpt⟩

theorem noWild_codesFold (s : String) (h : noWildcards s) : noWild (codesFold s) := by
  intro n hn
  obtain ⟨m, hm, rfl⟩ := List.mem_map.1 hn
  have hms := h m hm
  unfold foldCode
  split
  · omega
  · exact hms

theorem likeContains_iff (pat s : String) (h : noWildcards pat) :
    likeContains pat s = true ↔ containsCI pat s :=
  like_substring_iff (codesFold pat) (codesFold s) (noWild_codesFold pat h)

theorem likeContains_eq_decide (pat s : String) (h : noWildcards pat) :
    likeContains pat s = decide (containsCI pat s) := by
  cases hLC : likeContains pat s
  · have hn : ¬ containsCI pat s := fun hcon => by
      rw [(likeContains_iff pat s h).2 hcon] at hLC
      cases hLC
    simp [hn]
  · have hy : containsCI pat s := (likeContains_iff pat s h).1 hLC
    simp [hy]

/-! ### Lemmas about the LEFT JOIN / GROUP BY aggregation -/

theorem join_block_fst {revs : List Review} {r : Restaurant}
    {p : Restaurant × Option Review} (h : p ∈ join_block revs r) : p.1 = r := by
  unfold join_block at h
  by_cases hE : (reviews_for revs r.id).isEmpty
  · simp [hE] at h
    rw [h]
  · simp [hE] at h
    obtain ⟨v, _, hv⟩ := h
    rw [← hv]

theorem mem_join_rows_fst {revs : List Review} :
    ∀ {rs : List Restaurant} {p : Restaurant × Option Review},
      p ∈ join_rows rs revs → p.1 ∈ rs := by
  intro rs
  induction rs with
  | nil => intro p h; simp [join_rows] at h
  | cons r rs ih =>
    intro p h
    rw [join_rows, List.mem_append] at h
    rcases h with h | h
    · exact (join_block_fst h) ▸ List.mem_cons_self r rs
    · exact List.mem_cons_of_mem r (ih h)

theorem group_for_eq (revs : List Review) :
    ∀ (rs : List Restaurant) (r : Restaurant), r ∈ rs →
      (rs.map (fun x => x.id)).Nodup →
      group_for rs revs r.id = join_block revs r := by
  intro rs
  induction rs with
  | nil => intro r h; cases h
  | cons a rs ih =>
    intro r hmem hnd
    rw [List.map_cons, List.nodup_cons] at hnd
    unfold group_for at *
    rw [join_rows, List.filter_append]
    rcases List.mem_cons.1 hmem with rfl | hr
    · have h1 : (join_block revs r).filter (fun p => p.1.id == r.id) = join_block revs r :=
        List.filter_eq_self.2 (fun p hp => by rw [join_block_fst hp]; exact beq_self_eq_true _)
      have h2 : (join_rows rs revs).filter (fun p => p.1.id == r.id) = [] := by
        apply List.filter_eq_nil_iff.2
        intro p hp
        have : p.1 ∈ rs := mem_join_rows_fst hp
        simp only [beq_iff_eq, ne_eq]
        intro hid
        exact hnd.1 (hid ▸ List.mem_map_of_mem (fun x => x.id) this)
      rw [h1, h2, List.append_nil]
    · have haid : a.id ≠ r.id := by
        intro hid
        exact hnd.1 (hid ▸ List.mem_map_of_mem (fun x => x.id) hr)
      have h1 : (join_block revs a).filter (fun p => p.1.id == r.id) = [] := by
        apply List.filter_eq_nil_iff.2
        intro p hp
        rw [join_block_fst hp]
        simp [haid]
      rw [h1, List.nil_append]
      exact ih r hr hnd.2

theorem filterMap_pair_some {α : Type} (r : Restaurant) (g : Review → α) :
    ∀ l : List Review,
      (l.map (fun v => (r, some v))).filterMap
          (fun p : Restaurant × Option Review => p.2.map g) = l.map g := by
  intro l
  induction l with
  | nil => rfl
  | cons x xs ih => simp [ih]

theorem join_block_of_empty {revs : List Review} {r : Restaurant}
    (h : reviews_for revs r.id = []) : join_block revs r = [(r, none)] := by
  unfold join_block
  rw [if_pos (by simp [h])]

theorem join_block_of_ne {revs : List Review} {r : Restaurant}
    (h : reviews_for revs r.id ≠ []) :
    join_block revs r = (reviews_for revs r.id).map (fun v => (r, some v)) := by
  unfold join_block
  rw [if_neg (by simp [h])]

theorem agg_row_eval (rs : List Restaurant) (revs : List Review) (r : Restaurant)
    (hmem : r ∈ rs) (hnd : (rs.map (fun x => x.id)).Nodup) :
    (agg_row rs revs r).review_count = (reviews_for revs r.id).length ∧
    (agg_row rs revs r).avg_rating =
      (if (reviews_for revs r.id).isEmpty then 0
       else (((reviews_for revs r.id).map (fun v => v.rating)).sum : Rat) /
         (((reviews_for revs r.id).length : Nat) : Rat)) := by
  unfold agg_row
  rw [group_for_eq revs rs r hmem hnd]
  by_cases hne : reviews_for revs r.id = []
  · rw [join_block_of_empty hne]
    dsimp only
    simp [hne]
  · rw [join_block_of_ne hne]
    dsimp only
    rw [filterMap_pair_some, filterMap_pair_some]
    constructor
    · simp
    · simp [hne]

theorem aggregate_rows_sorted (rs : List Restaurant) (revs : List Review) :
    List.Pairwise (fun x y : RestaurantRow => y.id ≤ x.id) (aggregate_rows rs revs) := by
  unfold aggregate_rows
  rw [List.pairwise_map]
  exact List.sorted_insertionSort (fun a b : Restaurant => b.id ≤ a.id) rs

/-! ### Lemmas about the dynamically built search conditions -/

theorem cond_list_all (area cuisine : String) (ha : noWildcards area)
    (hc : noWildcards cuisine) (r : Restaurant) :
    (cond_list area cuisine).all (fun c => c r) =
      ((area == "" || decide (containsCI area r.area)) &&
       (cuisine == "" || decide (containsCI cuisine r.cuisines))) := by
  unfold cond_list
  by_cases hA : area = "" <;> by_cases hC : cuisine = ""
  · simp [hA, hC]
  · rw [if_pos hA, if_neg hC, beq_eq_false_iff_ne.2 hC]
    simp [hA, likeContains_eq_decide _ _ hc]
  · rw [if_neg hA, if_pos hC, beq_eq_false_iff_ne.2 hA]
    simp [hC, likeContains_eq_decide _ _ ha]
  · rw [if_neg hA, if_neg hC, beq_eq_false_iff_ne.2 hA, beq_eq_false_iff_ne.2 hC]
    simp [likeContains_eq_decide _ _ ha, likeContains_eq_decide _ _ hc]

theorem cond_list_isEmpty_iff (area cuisine : String) :
    (cond_list area cuisine).isEmpty = true ↔ area = "" ∧ cuisine = "" := by
  unfold cond_list
  by_cases hA : area = "" <;> by_cases hC : cuisine = "" <;> simp [hA, hC]

/-! ### Arithmetic helper lemmas -/

theorem roundTo1_zero : roundTo1 0 = 0 := by
  unfold roundTo1 roundHalfEven
  norm_num

theorem rat_length_le_sum (l : List Rat) (h : ∀ x ∈ l, 1 ≤ x) :
    (l.length : Rat) ≤ l.sum := by
  induction l with
  | nil => simp
  | cons x xs ih =>
    simp only [List.length_cons, List.sum_cons]
    have hx := h x (List.mem_cons_self x xs)
    have h2 := ih (fun y hy => h y (List.mem_cons_of_mem x hy))
    push_cast
    linarith

theorem floor_fifty_thirds : ⌊(50 / 3 : Rat)⌋ = 16 := by
  rw [Int.floor_eq_iff]
  constructor <;> norm_num

theorem roundTo1_five_thirds : roundTo1 (5 / 3) = 17 / 10 := by
  unfold roundTo1 roundHalfEven
  rw [show ((10 : Rat) * (5 / 3)) = 50 / 3 by norm_num]
  rw [floor_fifty_thirds]
  norm_num

/-! ### The claims -/

/-- C1: for every database state whose restaurant ids are distinct (ids
are the `INTEGER PRIMARY KEY`), `fetch_all_restaurants` returns one row
per restaurant, and a restaurant's row carries `review_count` equal to
its number of reviews and `avg_rating` equal to the exact mean of its
reviews' ratings, with `avg_rating = 0` and `review_count = 0` (never
null or absent) when it has no reviews. -/
theorem fetch_all_row_aggregates (db : DB)
    (hnd : (db.restaurants.map (fun r => r.id)).Nodup) :
    (fetch_all_restaurants db).length = db.restaurants.length ∧
    ∀ r ∈ db.restaurants, ∃ row ∈ fetch_all_restaurants db,
      row.id = r.id ∧
      row.review_count = (reviews_for db.reviews r.id).length ∧
      (reviews_for db.reviews r.id = [] → row.avg_rating = 0 ∧ row.review_count = 0) ∧
      (reviews_for db.reviews r.id ≠ [] →
        row.avg_rating =
          ((reviews_for db.reviews r.id).map (fun v => (v.rating : Rat))).sum /
            ((reviews_for db.reviews r.id).length : Rat)) := by
  constructor
  · unfold fetch_all_restaurants aggregate_rows
    rw [List.length_map, List.length_insertionSort]
  · intro r hr
    have h := agg_row_eval db.restaurants db.reviews r hr hnd
    refine ⟨agg_row db.restaurants db.reviews r, ?_, rfl, h.1, ?_, ?_⟩
    · unfold fetch_all_restaurants aggregate_rows
      exact List.mem_map_of_mem _ ((List.mem_insertionSort _).2 hr)
    · intro hE
      refine ⟨?_, ?_⟩
      · rw [h.2, if_pos (by simp [hE])]
      · rw [h.1, hE]
        rfl
    · intro hne
      rw [h.2, if_neg (by simp [hne])]

/-- Witness for C1 at the one-restaurant, one-review database. -/
theorem fetch_all_row_aggregates_witness :
    (fetch_all_restaurants sampleDB).length = sampleDB.restaurants.length ∧
    ∀ r ∈ sampleDB.restaurants, ∃ row ∈ fetch_all_restaurants sampleDB,
      row.id = r.id ∧
      row.review_count = (reviews_for sampleDB.reviews r.id).length ∧
      (reviews_for sampleDB.reviews r.id = [] → row.avg_rating = 0 ∧ row.review_count = 0) ∧
      (reviews_for sampleDB.reviews r.id ≠ [] →
        row.avg_rating =
          ((reviews_for sampleDB.reviews r.id).map (fun v => (v.rating : Rat))).sum /
            ((reviews_for sampleDB.reviews r.id).length : Rat)) :=
  fetch_all_row_aggregates sampleDB (by decide)

/-- C2 (refuting the claim as stated): deleting restaurant 1 succeeds
and removes it from `fetch_all_restaurants`, but its review survives --
`get_reviews_for_restaurant 1` still returns it -- and now references a
nonexistent restaurant: no connection issues `PRAGMA foreign_keys = ON`,
so SQLite never acts on the declared `ON DELETE CASCADE`. -/
theorem delete_restaurant_leaves_reviews :
    (delete_restaurant sampleDB 1).1 = true ∧
    (delete_restaurant sampleDB 1).2.reviews = [sampleReview] ∧
    get_reviews_for_restaurant (delete_restaurant sampleDB 1).2 1 =
      [⟨"Raj", 4, "Great", 5⟩] ∧
    fetch_all_restaurants (delete_restaurant sampleDB 1).2 = [] ∧
    ((delete_restaurant sampleDB 1).2.restaurants.all
      (fun r => r.id != sampleReview.restaurant_id)) = true := by
  decide

/-- C3 (refuting the claim as stated): submitting the valid Spice Hub
payload with a non-empty first-review comment ends in TypeError -- the
call at main.py line 232 passes 7 positional arguments to the 6-parameter
`add_restaurant` of turso_db_utils.py -- so zero restaurant rows and zero
review rows are inserted instead of one of each. -/
theorem add_restaurant_form_type_error :
    (add_restaurant_form emptyDB spiceInput 0).outcome = FormOutcome.typeError ∧
    (add_restaurant_form emptyDB spiceInput 0).db = emptyDB ∧
    (add_restaurant_form emptyDB spiceInput 0).review_insert_attempted = false := by
  decide

/-- C4: whenever the restaurant insert fails (the call raises TypeError,
or `add_restaurant` returns None), the Add-Restaurant form handler
reports no success, never reaches the `add_review` call, and leaves the
database unchanged -- no partial state, no orphan review. -/
theorem form_failure_no_partial_state (db : DB) (inp : FormInput) (t : Nat)
    (h : (add_restaurant_form db inp t).outcome = FormOutcome.typeError ∨
         (add_restaurant_form db inp t).outcome = FormOutcome.insertFailed) :
    (add_restaurant_form db inp t).outcome.isSuccess = false ∧
    (add_restaurant_form db inp t).review_insert_attempted = false ∧
    (add_restaurant_form db inp t).db = db := by
  by_cases hv : inp.title ≠ "" ∧ inp.area ≠ "" ∧ inp.google_map_link ≠ "" ∧ inp.cuisines ≠ []
  · have he : add_restaurant_form db inp t = ⟨.typeError, db, false⟩ := by
      unfold add_restaurant_form
      rw [if_pos hv, if_pos
        (by decide : main_add_restaurant_call_arg_count ≠ turso_add_restaurant_param_count)]
    rw [he]
    exact ⟨rfl, rfl, rfl⟩
  · have he : add_restaurant_form db inp t = ⟨.validationError, db, false⟩ := by
      unfold add_restaurant_form
      rw [if_neg hv]
    rw [he] at h ⊢
    rcases h with h | h <;> simp at h

/-- Witness for C4: the Spice Hub submission fails (with TypeError), and
indeed no review insert is attempted and the database is unchanged. -/
theorem form_failure_no_partial_state_witness :
    (add_restaurant_form sampleDB spiceInput 0).outcome.isSuccess = false ∧
    (add_restaurant_form sampleDB spiceInput 0).review_insert_attempted = false ∧
    (add_restaurant_form sampleDB spiceInput 0).db = sampleDB :=
  form_failure_no_partial_state sampleDB spiceInput 0 (Or.inl (by decide))

/-- C5: `add_review` with a rating outside [1, 5] violates the CHECK
constraint, returns false and leaves the database (hence the reviews
table) unchanged; with a rating in [1, 5] and an existing restaurant id
it returns true and appends exactly the new review row. -/
theorem add_review_rating_check (db : DB) (rid : Nat) (reviewer_name : String)
    (rating : Int) (comment : String) (t : Nat) :
    ((rating < 1 ∨ 5 < rating) →
      add_review db rid reviewer_name rating comment t = (false, db)) ∧
    (1 ≤ rating → rating ≤ 5 → (∃ r ∈ db.restaurants, r.id = rid) →
      (add_review db rid reviewer_name rating comment t).1 = true ∧
      (add_review db rid reviewer_name rating comment t).2.reviews =
        db.reviews ++ [⟨db.next_review_id, rid, reviewer_name, rating, comment, t⟩]) := by
  constructor
  · intro h
    unfold add_review
    rw [if_neg (by omega)]
  · intro h1 h2 _
    unfold add_review
    rw [if_pos ⟨h1, h2⟩]
    exact ⟨rfl, rfl⟩

/-- Witness for C5: rating 0 is rejected leaving the database unchanged;
rating 3 on the existing restaurant 1 succeeds. -/
theorem add_review_rating_check_witness :
    add_review sampleDB 1 "Raj" 0 "bad" 9 = (false, sampleDB) ∧
    (add_review sampleDB 1 "Raj" 3 "ok" 9).1 = true :=
  ⟨(add_review_rating_check sampleDB 1 "Raj" 0 "bad" 9).1 (Or.inl (by decide)),
   ((add_review_rating_check sampleDB 1 "Raj" 3 "ok" 9).2 (by decide) (by decide)
      ⟨sampleRestaurant, by decide, rfl⟩).1⟩

/-- C6 (refuting the claim as stated): on a database with no restaurants
at all, `add_review` for restaurant id 42 returns true and inserts the
review row: the declared FOREIGN KEY is never enforced because no
connection issues `PRAGMA foreign_keys = ON`. -/
theorem add_review_orphan_accepted :
    emptyDB.restaurants = [] ∧
    (add_review emptyDB 42 "Raj" 3 "hi" 0).1 = true ∧
    (add_review emptyDB 42 "Raj" 3 "hi" 0).2.reviews = [⟨1, 42, "Raj", 3, "hi", 0⟩] := by
  decide

/-- C7 (as amended): for filter strings free of the LIKE wildcards `%`
and `_`, `search_restaurants` returns exactly the aggregate rows of the
restaurants whose stored area (resp. comma-joined cuisines string)
contains the filter as a case-insensitive substring, AND-combining the
two filters, an empty filter imposing no constraint; the rows are
ordered by id descending; and with no filters the result is that of
`fetch_all_restaurants`. -/
theorem search_restaurants_characterized (db : DB) (area cuisine : String)
    (ha : noWildcards area) (hc : noWildcards cuisine) :
    search_restaurants db area cuisine =
      aggregate_rows
        (db.restaurants.filter (fun r =>
          (area == "" || decide (containsCI area r.area)) &&
          (cuisine == "" || decide (containsCI cuisine r.cuisines))))
        db.reviews ∧
    List.Pairwise (fun x y : RestaurantRow => y.id ≤ x.id)
      (search_restaurants db area cuisine) ∧
    search_restaurants db "" "" = fetch_all_restaurants db := by
  have hmain : search_restaurants db area cuisine =
      aggregate_rows
        (db.restaurants.filter (fun r =>
          (area == "" || decide (containsCI area r.area)) &&
          (cuisine == "" || decide (containsCI cuisine r.cuisines))))
        db.reviews := by
    unfold search_restaurants
    by_cases hE : (cond_list area cuisine).isEmpty
    · rw [if_pos hE]
      obtain ⟨hA, hC⟩ := (cond_list_isEmpty_iff area cuisine).1 hE
      have hfil : db.restaurants.filter (fun r =>
          (area == "" || decide (containsCI area r.area)) &&
          (cuisine == "" || decide (containsCI cuisine r.cuisines))) = db.restaurants := by
        apply List.filter_eq_self.2
        intro x _
        simp [hA, hC]
      rw [hfil]
    · rw [if_neg hE]
      congr 1
      apply List.filter_congr
      intro x _
      exact cond_list_all area cuisine ha hc x
  refine ⟨hmain, ?_, rfl⟩
  rw [hmain]
  exact aggregate_rows_sorted _ _

/-- Witness for C7 at the sample database with the wildcard-free filter
`dira`. -/
theorem search_restaurants_characterized_witness :
    search_restaurants sampleDB "dira" "" =
      aggregate_rows
        (sampleDB.restaurants.filter (fun r =>
          (("dira" : String) == "" || decide (containsCI "dira" r.area)) &&
          (("" : String) == "" || decide (containsCI "" r.cuisines))))
        sampleDB.reviews ∧
    List.Pairwise (fun x y : RestaurantRow => y.id ≤ x.id)
      (search_restaurants sampleDB "dira" "") ∧
    search_restaurants sampleDB "" "" = fetch_all_restaurants sampleDB :=
  search_restaurants_characterized sampleDB "dira" "" (by decide) (by decide)

/-- C7 counterexample to the claim as stated: `_` is a LIKE wildcard, so
searching for area `_` returns the restaurant whose area is `X`, even
though `_` is not a case-insensitive substring of `X`. -/
theorem search_wildcard_not_substring :
    (search_restaurants wildcardDB "_" "").map (fun row => row.id) = [1] ∧
    ¬ containsCI "_" "X" := by
  decide

/-- C8: adding a user whose name is already present fails (UNIQUE
constraint) and changes nothing, and `get_all_users` lists the name
exactly once both before and after the failed attempt. -/
theorem add_user_duplicate (db : DB) (name : String) (t : Nat)
    (hmem : name ∈ db.users.map (fun u => u.name))
    (hnd : (db.users.map (fun u => u.name)).Nodup) :
    add_user db name t = (false, db) ∧
    (get_all_users db).count name = 1 ∧
    (get_all_users (add_user db name t).2).count name = 1 := by
  have hfail : add_user db name t = (false, db) := by
    unfold add_user
    rw [if_pos ?hp]
    case hp =>
      rw [List.any_eq_true]
      obtain ⟨u, hu, hname⟩ := List.mem_map.1 hmem
      exact ⟨u, hu, by simp [hname]⟩
  have hcount : (get_all_users db).count name = 1 := by
    unfold get_all_users
    rw [(List.perm_insertionSort _ _).count_eq]
    exact List.count_eq_one_of_mem hnd hmem
  exact ⟨hfail, hcount, by rw [hfail]; exact hcount⟩

/-- Witness for C8: adding `Raj` again to the sample database fails and
`get_all_users` lists `Raj` exactly once before and after. -/
theorem add_user_duplicate_witness :
    add_user sampleDB "Raj" 3 = (false, sampleDB) ∧
    (get_all_users sampleDB).count "Raj" = 1 ∧
    (get_all_users (add_user sampleDB "Raj" 3).2).count "Raj" = 1 :=
  add_user_duplicate sampleDB "Raj" 3 (by decide) (by decide)

/-- C9 (as amended): on states whose matching ratings are all at least 1
(the CHECK constraint guarantees this for stored ratings),
`get_average_rating` returns the mean of the restaurant's review ratings
rounded to one decimal place -- half to even, Python's `round` -- and 0
when the restaurant has no reviews. -/
theorem get_average_rating_rounds (db : DB) (rid : Nat)
    (h : ∀ v ∈ db.reviews, v.restaurant_id = rid → 1 ≤ v.rating) :
    get_average_rating db rid = roundTo1 (ratingMean db rid) := by
  unfold get_average_rating ratingMean
  by_cases hne : reviews_for db.reviews rid = []
  · simp [hne, roundTo1_zero]
  · have hmem : ∀ x ∈ (reviews_for db.reviews rid).map (fun v => (v.rating : Rat)),
        (1 : Rat) ≤ x := by
      intro x hx
      obtain ⟨v, hv, rfl⟩ := List.mem_map.1 hx
      have hv2 := List.mem_filter.1 hv
      have : 1 ≤ v.rating := h v hv2.1 (by simpa using hv2.2)
      exact_mod_cast this
    have hlen : (0 : Rat) <
        (((reviews_for db.reviews rid).map (fun v => (v.rating : Rat))).length : Rat) := by
      have : 0 < (reviews_for db.reviews rid).length := List.length_pos.2 hne
      rw [List.length_map]
      exact_mod_cast this
    have hpos : (0 : Rat) <
        ((reviews_for db.reviews rid).map (fun v => (v.rating : Rat))).sum /
          (((reviews_for db.reviews rid).map (fun v => (v.rating : Rat))).length : Rat) := by
      apply div_pos ?_ hlen
      exact lt_of_lt_of_le hlen (rat_length_le_sum _ hmem)
    have hE : ((reviews_for db.reviews rid).map (fun v => (v.rating : Rat))).isEmpty = false := by
      simp [hne]
    dsimp only
    rw [hE]
    simp only [Bool.false_eq_true, if_false]
    rw [if_neg hpos.ne']

/-- Witness for C9 at the database with ratings 2, 2, 1. -/
theorem get_average_rating_rounds_witness :
    get_average_rating threeRatingDB 1 = roundTo1 (ratingMean threeRatingDB 1) :=
  get_average_rating_rounds threeRatingDB 1 (by decide)

/-- C9 counterexample to the claim as stated: with ratings 2, 2 and 1
the mean is 5/3, but `get_average_rating` returns 17/10 = 1.7, the mean
rounded to one decimal place, not the mean. -/
theorem get_average_rating_not_mean :
    get_average_rating threeRatingDB 1 ≠ ratingMean threeRatingDB 1 := by
  have h1 : get_average_rating threeRatingDB 1 = roundTo1 (5 / 3) := by
    simp [get_average_rating, reviews_for, threeRatingDB]
    norm_num
  have h2 : ratingMean threeRatingDB 1 = 5 / 3 := by
    simp [ratingMean, reviews_for, threeRatingDB]
    norm_num
  rw [h1, h2, roundTo1_five_thirds]
  norm_num

/-- C10: empty-string filters impose no constraint, exactly like absent
ones: `search_restaurants` with both filters empty returns the same rows
as `fetch_all_restaurants`, in the same order. -/
theorem search_empty_filters_eq (db : DB) :
    search_restaurants db "" "" = fetch_all_restaurants db := rfl

end Zomato
